import Mathlib

/- Shallow embedding of the research-agent subsystem of the ai-news-tracker
backend (app/services/research_agent and the nine tool providers under
app/services/research_agent/tools), together with the relevant part of
app/config.py.  Python dicts are modelled as association lists with
replace-or-append update; machine-level details (HTTP, threads) are
abstracted into explicit oracles (`Env.llm`, `Env.toolRun`, `Fetch`) so the
control flow of the Python code can be replayed exactly.  Exceptions that
escape `search` are modelled by `Except`. -/

/-- A Python scalar value as it appears in decoded JSON tool arguments. -/
inductive PyVal where
  | str (s : String)
  | int (n : Int)
deriving DecidableEq

/-- A Python dict with string keys, as produced by the tools. -/
structure PyDict where
  fields : List (String × PyVal)
deriving DecidableEq

/-- A tool result: either a list of records or a single dict (tavily). -/
inductive ToolResult where
  | list (rs : List PyDict)
  | dict (d : PyDict)
deriving DecidableEq

/-- A value stored in the `all_sources` dict: either Python `None`
(the initial value for the tavily key) or a tool result (the initial
value `[]` for the other keys is `res (.list [])`). -/
inductive SourceVal where
  | pyNone
  | res (r : ToolResult)
deriving DecidableEq

/-- The `sources` dict: insertion-ordered association list. -/
abbrev SourcesDict := List (String × SourceVal)

/-- Keys of a Python dict, in insertion order. -/
def dictKeys (d : SourcesDict) : List String := d.map Prod.fst

/-- Python dict assignment `d[k] = v`: replace in place if the key exists,
append otherwise. -/
def dictSet (d : SourcesDict) (k : String) (v : SourceVal) : SourcesDict :=
  if (d.map Prod.fst).contains k then
    d.map (fun p => if p.1 = k then (k, v) else p)
  else d ++ [(k, v)]

/-- Python dict lookup `d[k]` / `d.get(k)` on the sources dict. -/
def dictGet (d : SourcesDict) (k : String) : Option SourceVal :=
  match d with
  | [] => none
  | p :: t => if p.1 = k then some p.2 else dictGet t k

/-- Python `str.split()` on spaces, dropping empty pieces (worker over the
character list, with the piece built up in reverse). -/
def pySplitAux : List Char → List Char → List String
  | [], acc => if acc.isEmpty then [] else [⟨acc.reverse⟩]
  | c :: rest, acc =>
    if c = ' ' then
      if acc.isEmpty then pySplitAux rest []
      else String.mk acc.reverse :: pySplitAux rest []
    else pySplitAux rest (c :: acc)

/-- Python `str.split()` on spaces, dropping empty pieces. -/
def pySplit (s : String) : List String := pySplitAux s.data []

/-- Python `s.split(sep)` for a one-character separator, keeping empty
pieces. -/
def pySplitCharAux (sep : Char) : List Char → List Char → List String
  | [], acc => [⟨acc.reverse⟩]
  | c :: rest, acc =>
    if c = sep then String.mk acc.reverse :: pySplitCharAux sep rest []
    else pySplitCharAux sep rest (c :: acc)

def pySplitChar (s : String) (sep : Char) : List String :=
  pySplitCharAux sep s.data []

/-- Python `s[:n]`. -/
def pyTake (s : String) (n : Nat) : String := ⟨s.data.take n⟩

/-- Python `s.lower()` (ASCII case folding). -/
def pyLower (s : String) : String := ⟨s.data.map Char.toLower⟩

/-- Python `s.startswith(pre)`. -/
def pyStartsWith (s pre : String) : Bool := pre.data.isPrefixOf s.data

/-- Whether `n` occurs as a contiguous sublist of `h` (Python `in` on str). -/
def subAt : List Char → List Char → Bool
  | n, [] => n.isEmpty
  | n, c :: t => n.isPrefixOf (c :: t) || subAt n t

/-- Python `needle in hay` for strings. -/
def strHasSub (hay needle : String) : Bool := subAt needle.data hay.data

/-- Python `a or b` for an optional string `a` (None and "" are falsy). -/
def pyOr (a : Option String) (b : String) : String :=
  match a with
  | some s => if s = "" then b else s
  | none => b

/- ------------------------------------------------------------------ -/
/- tools/__init__.py -/

def AI_ML_CONTEXT : String := "AI machine learning deep learning"

def YOUTUBE_AI_ML_CONTEXT : String :=
  "AI machine learning tutorial deep learning neural network"

/-- `add_ai_ml_context(query, source="general")`. -/
def add_ai_ml_context (query : String) (source : String) : String :=
  if source = "youtube" then query ++ " " ++ YOUTUBE_AI_ML_CONTEXT
  else query ++ " " ++ AI_ML_CONTEXT

/-- `TOOL_FUNCTIONS`: tool name to the identity of the provider function it
is bound to (functions are represented by their source names). -/
def TOOL_FUNCTIONS : List (String × String) :=
  [("search_arxiv", "search_arxiv"),
   ("search_wikipedia", "search_wikipedia"),
   ("search_web", "search_tavily"),
   ("search_youtube", "search_youtube"),
   ("search_semantic_scholar", "search_semantic_scholar"),
   ("search_huggingface", "search_huggingface"),
   ("search_github", "search_github"),
   ("search_papers_with_code", "search_papers_with_code"),
   ("search_anthropic", "search_anthropic")]

/-- `TOOL_TO_SOURCE_KEY`: tool name to frontend source key. -/
def TOOL_TO_SOURCE_KEY : List (String × String) :=
  [("search_arxiv", "arxiv"),
   ("search_wikipedia", "wikipedia"),
   ("search_web", "tavily"),
   ("search_youtube", "youtube"),
   ("search_semantic_scholar", "semantic_scholar"),
   ("search_huggingface", "huggingface"),
   ("search_github", "github"),
   ("search_papers_with_code", "papers_with_code"),
   ("search_anthropic", "anthropic")]

/-- `ALL_SOURCE_KEYS = list(TOOL_TO_SOURCE_KEY.values())`. -/
def ALL_SOURCE_KEYS : List String := TOOL_TO_SOURCE_KEY.map Prod.snd

/- schemas.py -/

/-- The function names advertised in `TOOL_SCHEMAS`, in order. -/
def TOOL_SCHEMA_NAMES : List String :=
  ["search_arxiv", "search_wikipedia", "search_web", "search_youtube",
   "search_semantic_scholar", "search_huggingface", "search_github",
   "search_papers_with_code", "search_anthropic"]

/-- The `description` string of the `max_results` parameter in each entry of
`TOOL_SCHEMAS` (schemas.py), transcribed verbatim. -/
def SCHEMA_MAX_RESULTS_DESCRIPTION : List (String × String) :=
  [("search_arxiv", "Maximum number of papers to return (1-10, default 5)"),
   ("search_wikipedia", "Maximum number of articles to return (1-5, default 3)"),
   ("search_web", "Maximum number of results to return (1-10, default 5)"),
   ("search_youtube", "Maximum number of videos to return (1-10, default 5)"),
   ("search_semantic_scholar", "Maximum number of papers to return (1-10, default 5)"),
   ("search_huggingface", "Maximum number of models to return (1-10, default 5)"),
   ("search_github", "Maximum number of repos to return (1-10, default 5)"),
   ("search_papers_with_code", "Maximum number of results to return (1-10, default 5)"),
   ("search_anthropic", "Maximum number of articles to return (1-5, default 5)")]

/-- The default value of the `max_results` parameter in each provider
function signature (tools/<name>.py). -/
def providerDefaults : List (String × Nat) :=
  [("search_arxiv", 5), ("search_wikipedia", 3), ("search_tavily", 5),
   ("search_youtube", 5), ("search_semantic_scholar", 5),
   ("search_huggingface", 5), ("search_github", 5),
   ("search_papers_with_code", 5), ("search_anthropic", 5)]

/- ------------------------------------------------------------------ -/
/- agent.py: data types of the loop -/

/-- A decoded JSON value attached to a tool call: either an object
(a Python dict) or some other JSON value (list, number, ...). -/
inductive PyJson where
  | obj (kv : List (String × PyVal))
  | nonObj (raw : String)
deriving DecidableEq

/-- The serialized `arguments` of a tool call, classified by what
`json.loads` does with it. -/
inductive RawArgs where
  | malformed (raw : String)
  | decoded (v : PyJson)
deriving DecidableEq

/-- One tool-call request in an LLM response. -/
structure ToolCallReq where
  id : String
  fname : String
  arguments : RawArgs
deriving DecidableEq

/-- `response.choices[0].message`. -/
structure ChatMessage where
  content : Option String
  tool_calls : List ToolCallReq
deriving DecidableEq

/-- Outcome of one `chat.completions.create` call. -/
inductive LLMResult where
  | success (msg : ChatMessage)
  | exn (e : String)
deriving DecidableEq

/-- A conversation turn in `messages`. -/
inductive Message where
  | system (content : String)
  | user (content : String)
  | assistant (content : String) (tool_calls : List ToolCallReq)
  | toolTurn (tool_call_id : String) (content : String)
deriving DecidableEq

/-- One dispatch of a provider function to the worker pool: the function
identity, the `query` argument and the optional `max_results` argument. -/
structure ToolInvocation where
  fn : String
  queryArg : PyVal
  maxResultsArg : Option PyVal
deriving DecidableEq

/-- The ambient world of one `ResearchAgentService` call: settings and
availability flags, the LLM (indexed by call number) and the behaviour of
the provider functions. -/
structure Env where
  groq_api_key : String
  tavily_api_key : String
  youtube_api_key : String
  ARXIV_AVAILABLE : Bool
  WIKIPEDIA_AVAILABLE : Bool
  TAVILY_AVAILABLE : Bool
  YOUTUBE_AVAILABLE : Bool
  llm : Nat → LLMResult
  toolRun : String → PyVal → Option PyVal → ToolResult

/-- The mutable state of one `search` run, plus instrumentation: the log of
LLM calls (`true` when tool schemas were passed), the tool dispatches and
whether `_fallback_search` ran. -/
structure AgentState where
  messages : List Message
  all_sources : SourcesDict
  llmLog : List Bool
  invocations : List ToolInvocation
  fellBack : Bool
deriving DecidableEq

/-- The dict returned by `search`: `response` is `none` when the key is
absent, `some c` when present with content `c` (itself optional). -/
structure Outcome where
  query : String
  response : Option (Option String)
  sources : SourcesDict
  success : Bool
deriving DecidableEq

/-- An exception escaping `search` (a TypeError from binding decoded JSON
arguments that do not fit the provider signature). -/
inductive AgentError where
  | typeError (fn_name : String)
deriving DecidableEq

/- agent.py: the loop itself -/

def MAX_ITERATIONS : Nat := 5

def MODEL : String := "llama-3.1-8b-instant"

/-- `SYSTEM_PROMPT` (transcribed, punctuation slightly simplified). -/
def SYSTEM_PROMPT : String :=
  "You are a research assistant specializing in AI and machine learning. " ++
  "You have access to tools for searching academic papers (arXiv, Semantic Scholar, Papers With Code), " ++
  "Wikipedia, the web (Tavily), YouTube, HuggingFace models, GitHub repositories, " ++
  "and Anthropic research articles. Use the most relevant tools to find information " ++
  "about the user query. You can call multiple tools and refine your searches. " ++
  "After gathering enough information, provide a comprehensive 2-3 paragraph summary " ++
  "that synthesizes findings and cites which sources the information comes from."

def FINAL_SYNTHESIS_PROMPT : String :=
  "Please provide your final summary now based on all the information gathered."

/-- `_empty_sources()`: every source key maps to `[]`, then the tavily entry
is overwritten with `None`. -/
def empty_sources : SourcesDict :=
  dictSet (ALL_SOURCE_KEYS.map (fun k => (k, SourceVal.res (.list []))))
    "tavily" .pyNone

/-- `_collect_source`: map a tool result into the sources dict under the
source key of the tool name (no-op if the name is unmapped). -/
def collectSource (all_sources : SourcesDict) (fn_name : String)
    (result : ToolResult) : SourcesDict :=
  match TOOL_TO_SOURCE_KEY.lookup fn_name with
  | some key => dictSet all_sources key (.res result)
  | none => all_sources

/-- `_get_available_tools`: the advertised schema names and the
name-to-function map, skipping tools whose dependency or credential is
missing. -/
def getAvailableTools (env : Env) : List String × List (String × String) :=
  let skip : List String :=
    (if !env.ARXIV_AVAILABLE then ["search_arxiv"] else []) ++
    (if !env.WIKIPEDIA_AVAILABLE then ["search_wikipedia"] else []) ++
    (if !(env.TAVILY_AVAILABLE && !(env.tavily_api_key = "")) then ["search_web"] else []) ++
    (if !(env.YOUTUBE_AVAILABLE && !(env.youtube_api_key = "")) then ["search_youtube"] else [])
  TOOL_SCHEMA_NAMES.foldl (fun acc name =>
    if !(skip.contains name) && (TOOL_FUNCTIONS.lookup name).isSome then
      (acc.1 ++ [name], acc.2 ++ [(name, (TOOL_FUNCTIONS.lookup name).getD "")])
    else acc) ([], [])

/-- Binding `fn(**fn_args)` against the provider signature
`(query, max_results=...)`: succeeds when every key is `query` or
`max_results` and `query` is present; otherwise Python raises TypeError. -/
def bindKwargs (kv : List (String × PyVal)) : Option (PyVal × Option PyVal) :=
  if kv.all (fun p => p.1 == "query" || p.1 == "max_results") &&
     kv.any (fun p => p.1 == "query") then
    some ((kv.lookup "query").getD (.str ""), kv.lookup "max_results")
  else none

/-- Abstract stand-in for `json.dumps(result, default=str)`. -/
def dumpPyVal : PyVal → String
  | .str s => s
  | .int n => toString n

def dumpPyDict (d : PyDict) : String :=
  String.intercalate ";" (d.fields.map (fun p => p.1 ++ "=" ++ dumpPyVal p.2))

def dumpToolResult : ToolResult → String
  | .list rs => String.intercalate "|" (rs.map dumpPyDict)
  | .dict d => dumpPyDict d

/-- The `try: json.loads / except JSONDecodeError` step: undecodable
arguments are replaced by the default argument dict built from the original
query; this step itself never fails. -/
def decodeArgs (query : String) (args : RawArgs) : PyJson :=
  match args with
  | .malformed _ => .obj [("query", .str query)]
  | .decoded v => v

/-- One iteration of the tool-exec inner `for tool_call in msg.tool_calls`
body (agent.py lines 159-180). -/
def execToolCall (env : Env) (query : String)
    (func_map : List (String × String)) (st : AgentState)
    (tc : ToolCallReq) : Except AgentError AgentState :=
  match func_map.lookup tc.fname with
  | some fnId =>
    match decodeArgs query tc.arguments with
    | .obj kv =>
      match bindKwargs kv with
      | some (q, mr) =>
        let result := env.toolRun fnId q mr
        .ok { st with
              all_sources := collectSource st.all_sources tc.fname result
              invocations := st.invocations ++ [ToolInvocation.mk fnId q mr]
              messages := st.messages ++ [Message.toolTurn tc.id (dumpToolResult result)] }
      | none => .error (.typeError tc.fname)
    | .nonObj _ => .error (.typeError tc.fname)
  | none =>
    let result : ToolResult :=
      .dict ⟨[("error", .str ("Unknown tool: " ++ tc.fname))]⟩
    .ok { st with messages := st.messages ++ [Message.toolTurn tc.id (dumpToolResult result)] }

/-- The whole tool-exec `for` loop over one assistant message. -/
def execToolCalls (env : Env) (query : String)
    (func_map : List (String × String)) :
    List ToolCallReq → AgentState → Except AgentError AgentState
  | [], st => .ok st
  | tc :: rest, st =>
    match execToolCall env query func_map st tc with
    | .ok st2 => execToolCalls env query func_map rest st2
    | .error e => .error e

/-- The tasks dispatched by `_fallback_search`, in submission order:
`(task_name, provider function, query argument)`. -/
def fallbackTasks (env : Env) (query : String) :
    List (String × String × String) :=
  (let enhanced_query := add_ai_ml_context query "general"
   [("arxiv", "search_arxiv", enhanced_query),
    ("wikipedia", "search_wikipedia", enhanced_query),
    ("semantic_scholar", "search_semantic_scholar", enhanced_query),
    ("huggingface", "search_huggingface", enhanced_query),
    ("github", "search_github", enhanced_query),
    ("papers_with_code", "search_papers_with_code", enhanced_query),
    ("anthropic", "search_anthropic", query)]) ++
  (if env.tavily_api_key = "" then [] else
    [("tavily", "search_tavily", add_ai_ml_context query "general")]) ++
  (if env.youtube_api_key = "" then [] else
    [("youtube", "search_youtube", add_ai_ml_context query "youtube")])

/-- `_fallback_search`: run the fallback tasks, merge every result into a
fresh `_empty_sources()` dict, return a dict without a `response` key. -/
def fallbackSearch (env : Env) (query : String) (st : AgentState) :
    Outcome × AgentState :=
  let tasks := fallbackTasks env query
  let results := tasks.map (fun t => (t.1, env.toolRun t.2.1 (.str t.2.2) none))
  let sources := results.foldl (fun acc p => dictSet acc p.1 (.res p.2)) empty_sources
  ({ query := query, response := none, sources := sources, success := true },
   { st with
     fellBack := true
     invocations := st.invocations ++
       tasks.map (fun t => ToolInvocation.mk t.2.1 (.str t.2.2) none) })

/-- The forced final synthesis after the iteration budget is exhausted
(agent.py lines 182-206): append one user turn, one LLM call without tool
schemas; on failure return a dict without a `response` key, keeping the
accumulated sources. -/
def finalSynthesis (env : Env) (query : String) (st : AgentState) :
    Outcome × AgentState :=
  let st1 := { st with messages := st.messages ++ [Message.user FINAL_SYNTHESIS_PROMPT] }
  let idx := st1.llmLog.length
  let st2 := { st1 with llmLog := st1.llmLog ++ [false] }
  match env.llm idx with
  | .success msg =>
    ({ query := query
       response := some msg.content
       sources := st2.all_sources
       success := true }, st2)
  | .exn _ =>
    ({ query := query
       response := none
       sources := st2.all_sources
       success := true }, st2)

/-- The `for _ in range(MAX_ITERATIONS)` loop of `search`, by remaining
fuel.  Each iteration: one LLM call with tool schemas (fall back on
failure), exit with the text if no tool calls, else append the assistant
turn and execute the requested calls. -/
def searchLoop (env : Env) (query : String)
    (func_map : List (String × String)) :
    Nat → AgentState → Except AgentError (Outcome × AgentState)
  | 0, st => .ok (finalSynthesis env query st)
  | fuel + 1, st =>
    let idx := st.llmLog.length
    let st1 := { st with llmLog := st.llmLog ++ [true] }
    match env.llm idx with
    | .exn _ => .ok (fallbackSearch env query st1)
    | .success msg =>
      if msg.tool_calls.isEmpty then
        .ok ({ query := query
               response := some msg.content
               sources := st1.all_sources
               success := true }, st1)
      else
        let st2 := { st1 with messages :=
          st1.messages ++ [Message.assistant (msg.content.getD "") msg.tool_calls] }
        match execToolCalls env query func_map msg.tool_calls st2 with
        | .ok st3 => searchLoop env query func_map fuel st3
        | .error e => .error e

/-- The state of a run before any message or source is recorded. -/
def blankState : AgentState :=
  { messages := []
    all_sources := empty_sources
    llmLog := []
    invocations := []
    fellBack := false }

/-- The seeded conversation and sources at the top of the agentic loop. -/
def initialState (query : String) : AgentState :=
  { messages := [Message.system SYSTEM_PROMPT,
      Message.user ("Research the following topic in the context of AI and machine learning: " ++ query)]
    all_sources := empty_sources
    llmLog := []
    invocations := []
    fellBack := false }

/-- `ResearchAgentService.search`. -/
def search (env : Env) (query : String) :
    Except AgentError (Outcome × AgentState) :=
  if env.groq_api_key = "" then .ok (fallbackSearch env query blankState)
  else
    let avail := getAvailableTools env
    if avail.1.isEmpty then .ok (fallbackSearch env query blankState)
    else searchLoop env query avail.2 MAX_ITERATIONS (initialState query)

/- `search_source` -/

/-- The dict returned by `search_source`: either the regular shape or the
bare error dict returned for an unknown source. -/
inductive SourceQueryOutcome where
  | ok (query source : String) (results : ToolResult) (success : Bool)
  | errDict (msg : String)
deriving DecidableEq

/-- The `source_dispatch` dict of `search_source`: source key to
`(provider function, query argument)`. -/
def source_dispatch (query : String) : List (String × String × String) :=
  let enhanced_query := add_ai_ml_context query "general"
  [("arxiv", "search_arxiv", enhanced_query),
   ("wikipedia", "search_wikipedia", enhanced_query),
   ("tavily", "search_tavily", enhanced_query),
   ("youtube", "search_youtube", add_ai_ml_context query "youtube"),
   ("semantic_scholar", "search_semantic_scholar", enhanced_query),
   ("huggingface", "search_huggingface", enhanced_query),
   ("github", "search_github", enhanced_query),
   ("papers_with_code", "search_papers_with_code", enhanced_query),
   ("anthropic", "search_anthropic", query)]

/-- `ResearchAgentService.search_source`, paired with the list of provider
dispatches it performs. -/
def search_source (env : Env) (query source : String) :
    SourceQueryOutcome × List ToolInvocation :=
  match (source_dispatch query).lookup source with
  | none => (.errDict ("Unknown source: " ++ source), [])
  | some (fnId, q) =>
    (.ok query source (env.toolRun fnId (.str q) none) true,
     [⟨fnId, .str q, none⟩])

/- ------------------------------------------------------------------ -/
/- Tool providers (tools/<name>.py).  `Fetch` is the outcome of the
provider's outbound call(s): either the parsed payload or an exception
raised anywhere inside the `try` block. -/

inductive Fetch (α : Type) where
  | ok (val : α)
  | exn (e : String)
deriving DecidableEq

/-- A provider returning `List[Dict]`: either a list of records or the
one-element error list `[ error-record msg ]`. -/
inductive ListOut (ρ : Type) where
  | recs (rs : List ρ)
  | err (msg : String)
deriving DecidableEq

/-- Python `s[:n] + "..." if len(s) > n else s`. -/
def truncDots (s : String) (n : Nat) : String :=
  if n < s.length then pyTake s n ++ "..." else s

/- config.py -/

/-- The `Settings` pydantic model from app/config.py: exactly these fields
exist (with `extra="ignore"`, unknown environment entries are dropped). -/
structure Settings where
  groq_api_key : String
  tavily_api_key : String
  youtube_api_key : String
  database_url : String
  cors_origins : String
  reddit_client_id : String
  reddit_client_secret : String
deriving DecidableEq

/-- Python attribute lookup on a `Settings` instance: `none` models the
AttributeError raised for a name that is not a declared field. -/
def Settings.getAttr (s : Settings) : String → Option String
  | "groq_api_key" => some s.groq_api_key
  | "tavily_api_key" => some s.tavily_api_key
  | "youtube_api_key" => some s.youtube_api_key
  | "database_url" => some s.database_url
  | "cors_origins" => some s.cors_origins
  | "reddit_client_id" => some s.reddit_client_id
  | "reddit_client_secret" => some s.reddit_client_secret
  | _ => none

/- tools/arxiv.py -/

structure ArxivPaper where
  title : String
  authors : List String
  summary : String
  entry_id : String
  pdf_url : String
  published : Option String
deriving DecidableEq

structure ArxivRec where
  title : String
  authors : List String
  abstract : String
  url : String
  pdf_url : String
  published : Option String
deriving DecidableEq

def search_arxiv (available : Bool) (fetch : Fetch (List ArxivPaper))
    (_query : String) (_max_results : Nat) : ListOut ArxivRec :=
  if !available then .err "arxiv package not installed"
  else match fetch with
  | .exn e => .err e
  | .ok papers => .recs (papers.map (fun p =>
      { title := p.title
        authors := p.authors.take 3
        abstract := truncDots p.summary 500
        url := p.entry_id
        pdf_url := p.pdf_url
        published := p.published }))

/- tools/wikipedia.py -/

/-- Outcome of the per-title summary+page fetch: a page, or a
DisambiguationError/PageError which the loop skips. -/
inductive WikiPageFetch where
  | okPage (title summary url : String)
  | skipErr
deriving DecidableEq

structure WikiRec where
  title : String
  summary : String
  url : String
deriving DecidableEq

def search_wikipedia (available : Bool) (fetch : Fetch (List WikiPageFetch))
    (_query : String) (_max_results : Nat) : ListOut WikiRec :=
  if !available then .err "wikipedia package not installed"
  else match fetch with
  | .exn e => .err e
  | .ok titles => .recs (titles.filterMap (fun t =>
      match t with
      | .okPage title summary url => some ⟨title, summary, url⟩
      | .skipErr => none))

/- tools/tavily.py -/

structure TavSearchRec where
  title : String
  content : String
  url : String
deriving DecidableEq

structure TavResponse where
  answer : Option String
  results : List TavSearchRec
deriving DecidableEq

/-- search_tavily returns a dict, not a list; its error marker is the dict
`error: msg`. -/
inductive TavOut where
  | dict (answer : Option String) (results : List TavSearchRec)
  | err (msg : String)
deriving DecidableEq

def search_tavily (available : Bool) (api_key : String)
    (fetch : Fetch TavResponse) (_query : String) (max_results : Nat) : TavOut :=
  if !available then .err "tavily package not installed"
  else if api_key = "" then .err "Tavily API key not configured"
  else match fetch with
  | .exn e => .err e
  | .ok resp => .dict resp.answer ((resp.results.take max_results).map (fun r =>
      { r with content := pyTake r.content 300 }))

/- tools/youtube.py -/

structure YtItem where
  title : String
  channelTitle : String
  description : String
  videoId : String
  thumbnail_url : String
  publishedAt : String
deriving DecidableEq

structure YtRec where
  title : String
  channel : String
  description : String
  url : String
  thumbnail_url : String
  published_at : String
deriving DecidableEq

def search_youtube (available : Bool) (api_key : String)
    (fetch : Fetch (List YtItem)) (_query : String) (_max_results : Nat) :
    ListOut YtRec :=
  if !available then .err "google-api-python-client not installed"
  else if api_key = "" then .err "YouTube API key not configured"
  else match fetch with
  | .exn e => .err e
  | .ok items => .recs (items.map (fun it =>
      { title := it.title
        channel := it.channelTitle
        description := if it.description = "" then "" else pyTake it.description 200
        url := "https://www.youtube.com/watch?v=" ++ it.videoId
        thumbnail_url := it.thumbnail_url
        published_at := it.publishedAt }))

/- tools/semantic_scholar.py -/

structure S2Paper where
  paperId : String
  title : String
  year : Option Int
  citationCount : Int
  url : Option String
  abstract : Option String
  authors : List String
deriving DecidableEq

structure S2Rec where
  title : String
  authors : List String
  abstract : String
  url : String
  year : Option Int
  citation_count : Int
deriving DecidableEq

def search_semantic_scholar (fetch : Fetch (List S2Paper))
    (_query : String) (_max_results : Nat) : ListOut S2Rec :=
  match fetch with
  | .exn e => .err e
  | .ok data => .recs (data.map (fun p =>
      { title := p.title
        authors := p.authors.take 3
        abstract := truncDots (pyOr p.abstract "") 500
        url := pyOr p.url ("https://www.semanticscholar.org/paper/" ++ p.paperId)
        year := p.year
        citation_count := p.citationCount }))

/- tools/huggingface.py -/

structure HfModel where
  modelId : String
  downloads : Int
  likes : Int
  tags : List String
deriving DecidableEq

structure HfRec where
  model_id : String
  author : String
  downloads : Int
  likes : Int
  tags : List String
  url : String
deriving DecidableEq

def search_huggingface (fetch : Fetch (List HfModel))
    (_query : String) (max_results : Nat) : ListOut HfRec :=
  match fetch with
  | .exn e => .err e
  | .ok models => .recs ((models.take max_results).map (fun m =>
      { model_id := m.modelId
        author := if strHasSub m.modelId "/" then (pySplitChar m.modelId '/').headD "" else ""
        downloads := m.downloads
        likes := m.likes
        tags := m.tags.take 5
        url := "https://huggingface.co/" ++ m.modelId }))

/- tools/github.py -/

structure GhRepo where
  name : String
  full_name : String
  description : Option String
  html_url : String
  stargazers_count : Int
  language : Option String
  topics : List String
deriving DecidableEq

structure GhRec where
  name : String
  full_name : String
  description : String
  url : String
  stars : Int
  language : Option String
  topics : List String
deriving DecidableEq

/-- search_github paired with whether the outbound `httpx.get` was issued.
The body first evaluates `settings.github_token` inside the `try` block;
the Settings model has no such field, so that attribute access raises and
is caught by `except Exception`. -/
def search_github (s : Settings) (fetch : Fetch (List GhRepo))
    (_query : String) (max_results : Nat) : ListOut GhRec × Bool :=
  match s.getAttr "github_token" with
  | none => (.err "Settings object has no attribute github_token", false)
  | some _tok =>
    match fetch with
    | .exn e => (.err e, true)
    | .ok items =>
      (.recs ((items.take max_results).map (fun repo =>
        { name := repo.name
          full_name := repo.full_name
          description := pyTake (pyOr repo.description "") 300
          url := repo.html_url
          stars := repo.stargazers_count
          language := repo.language
          topics := repo.topics.take 5 })), true)

/- tools/papers_with_code.py -/

structure PwcPaper where
  title : String
  summary : String
  id : String
deriving DecidableEq

structure PwcRec where
  title : String
  abstract : String
  url : String
  repository_url : Option String
deriving DecidableEq

/-- The filtering loop with its `if len(results) >= max_results: break`
checked at the bottom of every iteration. -/
def pwcLoop (query_terms : List String) (max_results : Nat) :
    List PwcPaper → List PwcRec → List PwcRec
  | [], results => results
  | item :: rest, results =>
    let text := pyLower (item.title ++ " " ++ item.summary)
    let results2 :=
      if query_terms.any (fun t => strHasSub text t) then
        results ++ [{ title := item.title
                      abstract := truncDots item.summary 500
                      url := "https://huggingface.co/papers/" ++ item.id
                      repository_url := none }]
      else results
    if max_results ≤ results2.length then results2
    else pwcLoop query_terms max_results rest results2

def search_papers_with_code (fetch : Fetch (List PwcPaper))
    (query : String) (max_results : Nat) : ListOut PwcRec :=
  match fetch with
  | .exn e => .err e
  | .ok papers => .recs (pwcLoop (pySplit (pyLower query)) max_results papers [])

/- tools/anthropic.py -/

/-- One `<a href=...>` element of the fetched page: the text of its first
h2/h3/h4/span child (if any), the text of its first p child (if any), and
its href attribute. -/
structure LinkEl where
  titleElText : Option String
  descElText : Option String
  href : String
deriving DecidableEq

structure AnthRec where
  title : String
  description : String
  url : String
deriving DecidableEq

/-- The per-link keep/skip logic of the scraping loop: skip links without a
title element, with a short title, or whose lowercased title+description
contains none of the query terms; otherwise build the record. -/
def anthKeep (query_terms : List String) (link : LinkEl) : Option AnthRec :=
  match link.titleElText with
  | none => none
  | some title =>
    if title = "" || title.length < 10 then none
    else
      let description := (link.descElText).getD ""
      let text := pyLower (title ++ " " ++ description)
      if query_terms.any (fun t => strHasSub text t) then
        some { title := title
               description := pyTake description 300
               url := if pyStartsWith link.href "http" then link.href
                      else "https://www.anthropic.com" ++ link.href }
      else none

/-- The `seen`-set deduplication by record URL, keeping first occurrences. -/
def dedupByUrl : List AnthRec → List String → List AnthRec
  | [], _ => []
  | r :: rest, seen =>
    if seen.contains r.url then dedupByUrl rest seen
    else r :: dedupByUrl rest (r.url :: seen)

def search_anthropic (fetch : Fetch (List LinkEl)) (query : String)
    (max_results : Nat) : ListOut AnthRec :=
  match fetch with
  | .exn e => .err e
  | .ok links =>
    let query_terms := pySplit (pyLower query)
    let results := links.filterMap (anthKeep query_terms)
    .recs ((dedupByUrl results []).take max_results)

/- ------------------------------------------------------------------ -/
/- Helper predicates and projections used by the statements below. -/

/-- Whether an `Except` value is a normal return. -/
def isOkB {ε α : Type} : Except ε α → Bool
  | .ok _ => true
  | .error _ => false

/-- Whether an LLM call outcome is an exception. -/
def isExnB : LLMResult → Bool
  | .exn _ => true
  | .success _ => false

/-- Whether executing one tool call cannot raise: the tool is unknown, or
its arguments are undecodable JSON (the default kicks in), or they decode
to an object that binds against the provider signature. -/
def toolCallExecOK (func_map : List (String × String)) (tc : ToolCallReq) : Bool :=
  match func_map.lookup tc.fname with
  | none => true
  | some _ =>
    match tc.arguments with
    | .malformed _ => true
    | .decoded (.obj kv) => (bindKwargs kv).isSome
    | .decoded (.nonObj _) => false

/-- Whether an LLM call outcome is a success whose message requests at
least one tool call, all of them executable. -/
def requestsExecutableTools (func_map : List (String × String)) :
    LLMResult → Bool
  | .success msg => !msg.tool_calls.isEmpty && msg.tool_calls.all (toolCallExecOK func_map)
  | .exn _ => false

/-- A stub environment: no credentials, every dependency importable, a
failing LLM, and tools that return empty lists. -/
def stubEnv : Env :=
  { groq_api_key := ""
    tavily_api_key := ""
    youtube_api_key := ""
    ARXIV_AVAILABLE := true
    WIKIPEDIA_AVAILABLE := true
    TAVILY_AVAILABLE := true
    YOUTUBE_AVAILABLE := true
    llm := fun _ => .exn "stub"
    toolRun := fun _ _ _ => .list [] }

/-- A page link whose text contains the first query term but not the
second. -/
def cxLink : LinkEl :=
  { titleElText := some "alphabet paper ok", descElText := none,
    href := "/research/x" }

/-- Projection of a search return onto its outcome (none on a fault). -/
def resOutcome (r : Except AgentError (Outcome × AgentState)) : Option Outcome :=
  match r with
  | .ok p => some p.1
  | .error _ => none

/-- Projection of a search return onto its final state (none on a fault). -/
def resState (r : Except AgentError (Outcome × AgentState)) : Option AgentState :=
  match r with
  | .ok p => some p.2
  | .error _ => none

/-- A configured environment whose LLM immediately answers in plain text
with no tool calls. -/
def envNoToolCalls : Env :=
  { stubEnv with
    groq_api_key := "k"
    llm := fun _ => .success ⟨some "answer", []⟩ }

/-- A configured environment whose LLM requests one arXiv tool call with
undecodable arguments on every in-loop call and whose sixth call raises. -/
def envAlwaysTools : Env :=
  { stubEnv with
    groq_api_key := "k"
    llm := fun k =>
      if k < 5 then .success ⟨some "thinking", [⟨"c1", "search_arxiv", .malformed "oops"⟩]⟩
      else .exn "boom" }

/-- A configured environment whose LLM always requests one arXiv tool call
with undecodable arguments (the recovery path). -/
def envMalformedArgs : Env :=
  { stubEnv with
    groq_api_key := "k"
    llm := fun _ => .success ⟨none, [⟨"c1", "search_arxiv", .malformed "x"⟩]⟩ }

/-- A configured environment whose LLM requests one arXiv tool call whose
arguments decode to an empty JSON object (valid JSON, but missing the
required query parameter of the provider signature). -/
def envEmptyObjArgs : Env :=
  { stubEnv with
    groq_api_key := "k"
    llm := fun _ => .success ⟨none, [⟨"c1", "search_arxiv", .decoded (.obj [])⟩]⟩ }

/- Generic association-list lemmas. -/

theorem lookup_some_mem_snd {β : Type} (l : List (String × β)) (k : String)
    (v : β) (h : l.lookup k = some v) : v ∈ l.map Prod.snd := by
  induction l with
  | nil => simp [List.lookup] at h
  | cons p t ih =>
    rw [List.lookup] at h
    by_cases hk : k == p.1
    · simp [hk] at h
      simp [← h]
    · simp [hk] at h
      simp [ih h]

theorem lookup_none_of_not_mem {β : Type} (l : List (String × β)) (k : String)
    (h : k ∉ l.map Prod.fst) : l.lookup k = none := by
  induction l with
  | nil => rfl
  | cons p t ih =>
    rw [List.lookup]
    simp only [List.map_cons, List.mem_cons] at h
    push_neg at h
    have hk : (k == p.1) = false := by
      simp [h.1]
    rw [hk]
    exact ih h.2

/- Deduplication lemmas for the anthropic provider. -/

theorem mem_dedupByUrl (l : List AnthRec) (seen : List String) (r : AnthRec)
    (h : r ∈ dedupByUrl l seen) : r ∈ l := by
  induction l generalizing seen with
  | nil => simp [dedupByUrl] at h
  | cons a t ih =>
    rw [dedupByUrl] at h
    by_cases hs : seen.contains a.url
    · simp only [hs, if_true] at h
      exact List.mem_cons_of_mem a (ih _ h)
    · simp only [hs, if_false] at h
      rcases List.mem_cons.mp h with h1 | h2
      · exact h1 ▸ List.mem_cons_self a t
      · exact List.mem_cons_of_mem a (ih _ h2)

theorem dedupByUrl_nodup (l : List AnthRec) (seen : List String) :
    ((dedupByUrl l seen).map AnthRec.url).Nodup ∧
    ∀ u ∈ (dedupByUrl l seen).map AnthRec.url, u ∉ seen := by
  induction l generalizing seen with
  | nil => simp [dedupByUrl]
  | cons a t ih =>
    by_cases hs : a.url ∈ seen
    · have hc : seen.contains a.url = true := List.elem_iff.mpr hs
      rw [dedupByUrl, hc, if_pos rfl]
      exact ih seen
    · have hc : seen.contains a.url = false := by
        by_contra hcon
        exact hs (List.elem_iff.mp (Bool.eq_true_of_not_eq_false hcon))
      rw [dedupByUrl, hc]
      simp only [Bool.false_eq_true, if_false, List.map_cons, List.nodup_cons, List.mem_cons]
      obtain ⟨hn, hmem⟩ := ih (a.url :: seen)
      refine ⟨⟨?_, hn⟩, ?_⟩
      · intro hcon
        exact (hmem _ hcon) (List.mem_cons_self _ _)
      · rintro u (h1 | h2)
        · exact h1 ▸ hs
        · intro hu
          exact (hmem _ h2) (List.mem_cons_of_mem _ hu)

/-- Unfolding of a kept record of the anthropic scraping filter. -/
theorem anthKeep_some (terms : List String) (link : LinkEl) (r : AnthRec)
    (h : anthKeep terms link = some r) :
    ∃ title, link.titleElText = some title ∧ r.title = title ∧ title ≠ "" ∧
      ¬ title.length < 10 ∧
      terms.any (fun t =>
        strHasSub (pyLower (title ++ " " ++ link.descElText.getD "")) t) = true := by
  cases hte : link.titleElText with
  | none =>
    simp only [anthKeep, hte] at h
    exact absurd h (by simp)
  | some title =>
    simp only [anthKeep, hte] at h
    refine ⟨title, rfl, ?_⟩
    cases h1 : (decide (title = "") || decide (title.length < 10)) with
    | true =>
      rw [h1] at h
      simp at h
    | false =>
      rw [h1] at h
      simp only [Bool.false_eq_true, if_false] at h
      have hshort : ¬ title = "" ∧ ¬ title.length < 10 := by
        simpa [Bool.or_eq_false_iff] using h1
      cases h2 : (terms.any fun t =>
          strHasSub (pyLower (title ++ " " ++ link.descElText.getD "")) t) with
      | false =>
        rw [h2] at h
        simp at h
      | true =>
        rw [h2] at h
        simp only [if_true] at h
        have hr := Option.some.inj h
        refine ⟨?_, hshort.1, hshort.2, rfl⟩
        rw [← hr]

/-- C7 (amended): the organization-page provider keeps a fetched link only
if it has a title element of length at least 10 whose title-plus-description
text contains, case-insensitively, AT LEAST ONE term of the query as a
substring (not every term); the kept records are deduplicated by result
URL, and the truncation to max_results happens after deduplication. -/
theorem C7_anthropic_filter_dedup_truncate (links : List LinkEl) (q : String)
    (n : Nat) (out : List AnthRec)
    (h : search_anthropic (.ok links) q n = .recs out) :
    (∀ r ∈ out, ∃ link ∈ links, ∃ title, link.titleElText = some title ∧
        r.title = title ∧ title ≠ "" ∧ ¬ title.length < 10 ∧
        (pySplit (pyLower q)).any (fun t =>
          strHasSub (pyLower (title ++ " " ++ link.descElText.getD "")) t) = true) ∧
    (out.map AnthRec.url).Nodup ∧
    out.length =
      min n (dedupByUrl (links.filterMap (anthKeep (pySplit (pyLower q)))) []).length := by
  have hout : out =
      (dedupByUrl (links.filterMap (anthKeep (pySplit (pyLower q)))) []).take n := by
    unfold search_anthropic at h
    exact (ListOut.recs.inj h).symm
  subst hout
  refine ⟨?_, ?_, ?_⟩
  · intro r hr
    have hr2 := List.mem_of_mem_take hr
    have hr3 := mem_dedupByUrl _ _ _ hr2
    obtain ⟨link, hlink, hkeep⟩ := List.mem_filterMap.mp hr3
    obtain ⟨title, h1, h2, h3, h4, h5⟩ := anthKeep_some _ _ _ hkeep
    exact ⟨link, hlink, title, h1, h2, h3, h4, h5⟩
  · rw [List.map_take]
    exact List.Nodup.sublist (List.take_sublist _ _) (dedupByUrl_nodup _ []).1
  · exact List.length_take _ _

/-- C7 counterexample: for query "alpha zzz" the link is kept although its
text does not contain the term "zzz", so the filter is not an
every-term match. -/
theorem C7_counterexample :
    search_anthropic (.ok [cxLink]) "alpha zzz" 5 =
      .recs [{ title := "alphabet paper ok", description := "",
               url := "https://www.anthropic.com/research/x" }] ∧
    strHasSub (pyLower ("alphabet paper ok" ++ " " ++ "")) "zzz" = false := by
  exact ⟨by decide, by decide⟩

/-- C10: for every Settings value, fetch behaviour, query and max_results,
search_github returns the one-element error sequence produced by catching
the AttributeError on `settings.github_token`, and the outbound HTTP
request is never issued (second component false). -/
theorem C10_github_token_attribute_error (s : Settings)
    (fetch : Fetch (List GhRepo)) (q : String) (n : Nat) :
    search_github s fetch q n =
      (.err "Settings object has no attribute github_token", false) := rfl

/-- C8 (amended): every provider takes `(query, max_results)` and returns
its result by value, converting every failure into an error record.  The
`max_results` default is 5 for eight providers but 3 for the wikipedia
provider, and the advertised schema bound is 1-10 for seven tools but 1-5
for the wikipedia and anthropic tools. -/
theorem C8_provider_contract :
    (providerDefaults.lookup "search_wikipedia" = some 3 ∧
     ∀ p ∈ providerDefaults, p.1 ≠ "search_wikipedia" → p.2 = 5) ∧
    (SCHEMA_MAX_RESULTS_DESCRIPTION.lookup "search_wikipedia" =
       some "Maximum number of articles to return (1-5, default 3)" ∧
     SCHEMA_MAX_RESULTS_DESCRIPTION.lookup "search_anthropic" =
       some "Maximum number of articles to return (1-5, default 5)" ∧
     ∀ p ∈ SCHEMA_MAX_RESULTS_DESCRIPTION,
       p.1 ≠ "search_wikipedia" → p.1 ≠ "search_anthropic" →
       strHasSub p.2 "(1-10, default 5)" = true) ∧
    (∀ fetch q n, search_arxiv false fetch q n = .err "arxiv package not installed") ∧
    (∀ q n e, search_arxiv true (.exn e) q n = .err e) ∧
    (∀ fetch q n, search_wikipedia false fetch q n = .err "wikipedia package not installed") ∧
    (∀ q n e, search_wikipedia true (.exn e) q n = .err e) ∧
    (∀ k fetch q n, search_tavily false k fetch q n = .err "tavily package not installed") ∧
    (∀ fetch q n, search_tavily true "" fetch q n = .err "Tavily API key not configured") ∧
    (∀ k q n e, k ≠ "" → search_tavily true k (.exn e) q n = .err e) ∧
    (∀ k fetch q n, search_youtube false k fetch q n = .err "google-api-python-client not installed") ∧
    (∀ fetch q n, search_youtube true "" fetch q n = .err "YouTube API key not configured") ∧
    (∀ k q n e, k ≠ "" → search_youtube true k (.exn e) q n = .err e) ∧
    (∀ q n e, search_semantic_scholar (.exn e) q n = .err e) ∧
    (∀ q n e, search_huggingface (.exn e) q n = .err e) ∧
    (∀ s q n e, search_github s (.exn e) q n =
      (.err "Settings object has no attribute github_token", false)) ∧
    (∀ q n e, search_papers_with_code (.exn e) q n = .err e) ∧
    (∀ q n e, search_anthropic (.exn e) q n = .err e) := by
  refine ⟨⟨by decide, by decide⟩, ⟨by decide, by decide, by decide⟩,
    fun fetch q n => rfl, fun q n e => rfl,
    fun fetch q n => rfl, fun q n e => rfl,
    fun k fetch q n => rfl, fun fetch q n => rfl,
    fun k q n e hk => by simp [search_tavily, hk],
    fun k fetch q n => rfl, fun fetch q n => rfl,
    fun k q n e hk => by simp [search_youtube, hk],
    fun q n e => rfl, fun q n e => rfl,
    fun s q n e => rfl, fun q n e => rfl, fun q n e => rfl⟩

/-- C8 counterexample: the wikipedia provider signature defaults
max_results to 3, not 5. -/
theorem C8_counterexample :
    providerDefaults.lookup "search_wikipedia" = some 3 ∧
    (some 3 : Option Nat) ≠ some 5 := by decide

/-- C8 witness: the credentialed providers convert an exception into an
error value when a key is present. -/
theorem C8_witness :
    search_tavily true "k" (.exn "boom") "q" 5 = .err "boom" ∧
    search_youtube true "k" (.exn "boom") "q" 5 = .err "boom" := by
  have h := C8_provider_contract
  exact ⟨h.2.2.2.2.2.2.2.2.1 "k" "q" 5 "boom" (by decide),
         h.2.2.2.2.2.2.2.2.2.2.2.1 "k" "q" 5 "boom" (by decide)⟩

/-- C9: search_source returns the `query, source, results, success` shape,
applies to each source exactly the query augmentation that fallback mode
uses (the fixed context for seven sources, the youtube context for the
video tool, and the plain query for the anthropic tool), dispatches exactly
the one mapped provider function, and for an unknown source name returns a
bare error dict with zero provider dispatches. -/
theorem C9_search_source_contract (env : Env) (q : String) :
    search_source env q "arxiv" =
      (.ok q "arxiv" (env.toolRun "search_arxiv" (.str (add_ai_ml_context q "general")) none) true,
       [⟨"search_arxiv", .str (add_ai_ml_context q "general"), none⟩]) ∧
    search_source env q "wikipedia" =
      (.ok q "wikipedia" (env.toolRun "search_wikipedia" (.str (add_ai_ml_context q "general")) none) true,
       [⟨"search_wikipedia", .str (add_ai_ml_context q "general"), none⟩]) ∧
    search_source env q "tavily" =
      (.ok q "tavily" (env.toolRun "search_tavily" (.str (add_ai_ml_context q "general")) none) true,
       [⟨"search_tavily", .str (add_ai_ml_context q "general"), none⟩]) ∧
    search_source env q "youtube" =
      (.ok q "youtube" (env.toolRun "search_youtube" (.str (add_ai_ml_context q "youtube")) none) true,
       [⟨"search_youtube", .str (add_ai_ml_context q "youtube"), none⟩]) ∧
    search_source env q "semantic_scholar" =
      (.ok q "semantic_scholar" (env.toolRun "search_semantic_scholar" (.str (add_ai_ml_context q "general")) none) true,
       [⟨"search_semantic_scholar", .str (add_ai_ml_context q "general"), none⟩]) ∧
    search_source env q "huggingface" =
      (.ok q "huggingface" (env.toolRun "search_huggingface" (.str (add_ai_ml_context q "general")) none) true,
       [⟨"search_huggingface", .str (add_ai_ml_context q "general"), none⟩]) ∧
    search_source env q "github" =
      (.ok q "github" (env.toolRun "search_github" (.str (add_ai_ml_context q "general")) none) true,
       [⟨"search_github", .str (add_ai_ml_context q "general"), none⟩]) ∧
    search_source env q "papers_with_code" =
      (.ok q "papers_with_code" (env.toolRun "search_papers_with_code" (.str (add_ai_ml_context q "general")) none) true,
       [⟨"search_papers_with_code", .str (add_ai_ml_context q "general"), none⟩]) ∧
    search_source env q "anthropic" =
      (.ok q "anthropic" (env.toolRun "search_anthropic" (.str q) none) true,
       [⟨"search_anthropic", .str q, none⟩]) ∧
    (∀ source, source ∉ ALL_SOURCE_KEYS →
      search_source env q source = (.errDict ("Unknown source: " ++ source), [])) := by
  refine ⟨rfl, rfl, rfl, rfl, rfl, rfl, rfl, rfl, rfl, ?_⟩
  intro source hs
  have hnone : (source_dispatch q).lookup source = none := by
    apply lookup_none_of_not_mem
    have hkeys : (source_dispatch q).map Prod.fst = ALL_SOURCE_KEYS := rfl
    rw [hkeys]
    exact hs
  unfold search_source
  rw [hnone]

/-- C9 witness: a concrete unknown source name yields the error dict and no
provider dispatch, and a concrete known source dispatches its one tool. -/
theorem C9_witness :
    search_source stubEnv "q" "bogus" = (.errDict "Unknown source: bogus", []) ∧
    search_source stubEnv "q" "anthropic" =
      (.ok "q" "anthropic" (.list []) true, [⟨"search_anthropic", .str "q", none⟩]) := by
  have h := C9_search_source_contract stubEnv "q"
  exact ⟨h.2.2.2.2.2.2.2.2.2 "bogus" (by decide), h.2.2.2.2.2.2.2.2.1⟩


/- Lookup laws of the Python dict model. -/

theorem dictGet_map_replace_ne (d : SourcesDict) (k : String) (v : SourceVal)
    (q : String) (hq : q ≠ k) :
    dictGet (d.map (fun p => if p.1 = k then (k, v) else p)) q = dictGet d q := by
  have hkq : ¬ k = q := fun h => hq h.symm
  induction d with
  | nil => rfl
  | cons p t ih =>
    by_cases hpk : p.1 = k
    · simp [dictGet, hpk, hkq, ih]
    · simp [dictGet, hpk, ih]

theorem dictGet_map_replace_self (d : SourcesDict) (k : String) (v : SourceVal)
    (hk : k ∈ d.map Prod.fst) :
    dictGet (d.map (fun p => if p.1 = k then (k, v) else p)) k = some v := by
  induction d with
  | nil => simp at hk
  | cons p t ih =>
    by_cases hpk : p.1 = k
    · simp [dictGet, hpk]
    · have hk2 : k ∈ t.map Prod.fst := by
        simp only [List.map_cons, List.mem_cons] at hk
        rcases hk with h | h
        · exact absurd h.symm hpk
        · exact h
      simp [dictGet, hpk, ih hk2]

theorem dictGet_append_single_ne (d : SourcesDict) (k : String) (v : SourceVal)
    (q : String) (hq : q ≠ k) :
    dictGet (d ++ [(k, v)]) q = dictGet d q := by
  have hkq : ¬ k = q := fun h => hq h.symm
  induction d with
  | nil => simp [dictGet, hkq]
  | cons p t ih =>
    simp [dictGet, ih]

theorem dictGet_append_single_self (d : SourcesDict) (k : String) (v : SourceVal)
    (hk : k ∉ d.map Prod.fst) :
    dictGet (d ++ [(k, v)]) k = some v := by
  induction d with
  | nil => simp [dictGet]
  | cons p t ih =>
    simp only [List.map_cons, List.mem_cons] at hk
    push_neg at hk
    have h1 : ¬ p.1 = k := fun h => hk.1 h.symm
    simp [dictGet, h1, ih hk.2]

/-- Python dict update law: reading `q` after `d[k] = v` yields `v` at `k`
and is unchanged elsewhere. -/
theorem dictGet_dictSet (d : SourcesDict) (k : String) (v : SourceVal)
    (q : String) :
    dictGet (dictSet d k v) q = if q = k then some v else dictGet d q := by
  unfold dictSet
  by_cases hc : (d.map Prod.fst).contains k
  · rw [if_pos hc]
    by_cases hq : q = k
    · subst hq
      rw [if_pos rfl]
      exact dictGet_map_replace_self d q v (List.mem_of_elem_eq_true hc)
    · rw [if_neg hq]
      exact dictGet_map_replace_ne d k v q hq
  · rw [if_neg hc]
    by_cases hq : q = k
    · subst hq
      rw [if_pos rfl]
      exact dictGet_append_single_self d q v (fun h => hc (List.elem_eq_true_of_mem h))
    · rw [if_neg hq]
      exact dictGet_append_single_ne d k v q hq


set_option maxHeartbeats 1600000 in
/-- C6 (amended): fallback mode always runs the six credential-free tools
and the anthropic tool, plus tavily and youtube exactly when their API keys
are set; each receives the query with the fixed domain context appended
(the longer youtube context for the video tool), EXCEPT the anthropic tool,
which receives the plain query unmodified; every result is merged under its
response key into a fresh sources dict, and the outcome carries no
synthesized text and success true. -/
theorem C6_fallback_fanout (env : Env) (q : String) (st0 : AgentState) :
    (fallbackSearch env q st0).1.response = none ∧
    (fallbackSearch env q st0).1.success = true ∧
    (fallbackSearch env q st0).2.fellBack = true ∧
    (fallbackSearch env q st0).2.invocations = st0.invocations ++
      ([⟨"search_arxiv", .str (add_ai_ml_context q "general"), none⟩,
        ⟨"search_wikipedia", .str (add_ai_ml_context q "general"), none⟩,
        ⟨"search_semantic_scholar", .str (add_ai_ml_context q "general"), none⟩,
        ⟨"search_huggingface", .str (add_ai_ml_context q "general"), none⟩,
        ⟨"search_github", .str (add_ai_ml_context q "general"), none⟩,
        ⟨"search_papers_with_code", .str (add_ai_ml_context q "general"), none⟩,
        ⟨"search_anthropic", .str q, none⟩] ++
       (if env.tavily_api_key = "" then [] else
         [⟨"search_tavily", .str (add_ai_ml_context q "general"), none⟩]) ++
       (if env.youtube_api_key = "" then [] else
         [⟨"search_youtube", .str (add_ai_ml_context q "youtube"), none⟩])) ∧
    dictGet (fallbackSearch env q st0).1.sources "arxiv" =
      some (.res (env.toolRun "search_arxiv" (.str (add_ai_ml_context q "general")) none)) ∧
    dictGet (fallbackSearch env q st0).1.sources "wikipedia" =
      some (.res (env.toolRun "search_wikipedia" (.str (add_ai_ml_context q "general")) none)) ∧
    dictGet (fallbackSearch env q st0).1.sources "semantic_scholar" =
      some (.res (env.toolRun "search_semantic_scholar" (.str (add_ai_ml_context q "general")) none)) ∧
    dictGet (fallbackSearch env q st0).1.sources "huggingface" =
      some (.res (env.toolRun "search_huggingface" (.str (add_ai_ml_context q "general")) none)) ∧
    dictGet (fallbackSearch env q st0).1.sources "github" =
      some (.res (env.toolRun "search_github" (.str (add_ai_ml_context q "general")) none)) ∧
    dictGet (fallbackSearch env q st0).1.sources "papers_with_code" =
      some (.res (env.toolRun "search_papers_with_code" (.str (add_ai_ml_context q "general")) none)) ∧
    dictGet (fallbackSearch env q st0).1.sources "anthropic" =
      some (.res (env.toolRun "search_anthropic" (.str q) none)) ∧
    dictGet (fallbackSearch env q st0).1.sources "tavily" =
      (if env.tavily_api_key = "" then some SourceVal.pyNone else
        some (.res (env.toolRun "search_tavily" (.str (add_ai_ml_context q "general")) none))) ∧
    dictGet (fallbackSearch env q st0).1.sources "youtube" =
      (if env.youtube_api_key = "" then some (SourceVal.res (.list [])) else
        some (.res (env.toolRun "search_youtube" (.str (add_ai_ml_context q "youtube")) none))) := by
  by_cases ht : env.tavily_api_key = ""
  · by_cases hy : env.youtube_api_key = ""
    · have hTasks : fallbackTasks env q =
          [("arxiv", "search_arxiv", add_ai_ml_context q "general"),
           ("wikipedia", "search_wikipedia", add_ai_ml_context q "general"),
           ("semantic_scholar", "search_semantic_scholar", add_ai_ml_context q "general"),
           ("huggingface", "search_huggingface", add_ai_ml_context q "general"),
           ("github", "search_github", add_ai_ml_context q "general"),
           ("papers_with_code", "search_papers_with_code", add_ai_ml_context q "general"),
           ("anthropic", "search_anthropic", q)] := by
        rw [fallbackTasks, if_pos ht, if_pos hy]
        exact rfl
      refine ⟨rfl, rfl, rfl, ?_, ?_, ?_, ?_, ?_, ?_, ?_, ?_, ?_, ?_⟩ <;>
        simp [fallbackSearch, hTasks, ht, hy, dictGet_dictSet, empty_sources,
          ALL_SOURCE_KEYS, TOOL_TO_SOURCE_KEY, dictSet, dictGet]
    · have hTasks : fallbackTasks env q =
          [("arxiv", "search_arxiv", add_ai_ml_context q "general"),
           ("wikipedia", "search_wikipedia", add_ai_ml_context q "general"),
           ("semantic_scholar", "search_semantic_scholar", add_ai_ml_context q "general"),
           ("huggingface", "search_huggingface", add_ai_ml_context q "general"),
           ("github", "search_github", add_ai_ml_context q "general"),
           ("papers_with_code", "search_papers_with_code", add_ai_ml_context q "general"),
           ("anthropic", "search_anthropic", q),
           ("youtube", "search_youtube", add_ai_ml_context q "youtube")] := by
        rw [fallbackTasks, if_pos ht, if_neg hy]
        exact rfl
      refine ⟨rfl, rfl, rfl, ?_, ?_, ?_, ?_, ?_, ?_, ?_, ?_, ?_, ?_⟩ <;>
        simp [fallbackSearch, hTasks, ht, hy, dictGet_dictSet, empty_sources,
          ALL_SOURCE_KEYS, TOOL_TO_SOURCE_KEY, dictSet, dictGet]
  · by_cases hy : env.youtube_api_key = ""
    · have hTasks : fallbackTasks env q =
          [("arxiv", "search_arxiv", add_ai_ml_context q "general"),
           ("wikipedia", "search_wikipedia", add_ai_ml_context q "general"),
           ("semantic_scholar", "search_semantic_scholar", add_ai_ml_context q "general"),
           ("huggingface", "search_huggingface", add_ai_ml_context q "general"),
           ("github", "search_github", add_ai_ml_context q "general"),
           ("papers_with_code", "search_papers_with_code", add_ai_ml_context q "general"),
           ("anthropic", "search_anthropic", q),
           ("tavily", "search_tavily", add_ai_ml_context q "general")] := by
        rw [fallbackTasks, if_neg ht, if_pos hy]
        exact rfl
      refine ⟨rfl, rfl, rfl, ?_, ?_, ?_, ?_, ?_, ?_, ?_, ?_, ?_, ?_⟩ <;>
        simp [fallbackSearch, hTasks, ht, hy, dictGet_dictSet, empty_sources,
          ALL_SOURCE_KEYS, TOOL_TO_SOURCE_KEY, dictSet, dictGet]
    · have hTasks : fallbackTasks env q =
          [("arxiv", "search_arxiv", add_ai_ml_context q "general"),
           ("wikipedia", "search_wikipedia", add_ai_ml_context q "general"),
           ("semantic_scholar", "search_semantic_scholar", add_ai_ml_context q "general"),
           ("huggingface", "search_huggingface", add_ai_ml_context q "general"),
           ("github", "search_github", add_ai_ml_context q "general"),
           ("papers_with_code", "search_papers_with_code", add_ai_ml_context q "general"),
           ("anthropic", "search_anthropic", q),
           ("tavily", "search_tavily", add_ai_ml_context q "general"),
           ("youtube", "search_youtube", add_ai_ml_context q "youtube")] := by
        rw [fallbackTasks, if_neg ht, if_neg hy]
        exact rfl
      refine ⟨rfl, rfl, rfl, ?_, ?_, ?_, ?_, ?_, ?_, ?_, ?_, ?_, ?_⟩ <;>
        simp [fallbackSearch, hTasks, ht, hy, dictGet_dictSet, empty_sources,
          ALL_SOURCE_KEYS, TOOL_TO_SOURCE_KEY, dictSet, dictGet]

/-- C6 counterexample: in fallback mode the anthropic tool runs against the
plain query "x", which differs from the query with the domain context
appended, so not every tool receives the augmented query. -/
theorem C6_counterexample :
    ((fallbackSearch stubEnv "x" blankState).2.invocations.map
      (fun i => (i.fn, i.queryArg))).contains ("search_anthropic", .str "x") = true ∧
    "x" ≠ add_ai_ml_context "x" "general" := by
  exact ⟨by decide, by decide⟩

/- Key-set preservation through the loop (C1). -/

theorem dictKeys_dictSet_of_mem (d : SourcesDict) (k : String) (v : SourceVal)
    (h : k ∈ d.map Prod.fst) : dictKeys (dictSet d k v) = dictKeys d := by
  unfold dictSet dictKeys
  rw [if_pos (List.elem_eq_true_of_mem h)]
  rw [List.map_map]
  apply List.map_congr_left
  intro p _
  by_cases hp : p.1 = k
  · simp [hp]
  · simp [hp]

theorem keys_collectSource (d : SourcesDict) (fn : String) (r : ToolResult)
    (h : dictKeys d = ALL_SOURCE_KEYS) :
    dictKeys (collectSource d fn r) = ALL_SOURCE_KEYS := by
  unfold collectSource
  cases hl : TOOL_TO_SOURCE_KEY.lookup fn with
  | none => exact h
  | some key =>
    have hk : key ∈ ALL_SOURCE_KEYS := lookup_some_mem_snd _ _ _ hl
    rw [dictKeys_dictSet_of_mem d key _ (by rw [← dictKeys]; rw [h]; exact hk)]
    exact h

theorem keys_execToolCall (env : Env) (q : String)
    (fm : List (String × String)) (st : AgentState) (tc : ToolCallReq)
    (st2 : AgentState) (he : execToolCall env q fm st tc = .ok st2)
    (h : dictKeys st.all_sources = ALL_SOURCE_KEYS) :
    dictKeys st2.all_sources = ALL_SOURCE_KEYS := by
  unfold execToolCall at he
  split at he
  · split at he
    · split at he
      · have h2 := Except.ok.inj he
        rw [← h2]
        exact keys_collectSource _ _ _ h
      · cases he
    · cases he
  · have h2 := Except.ok.inj he
    rw [← h2]
    exact h

theorem keys_execToolCalls (env : Env) (q : String)
    (fm : List (String × String)) (tcs : List ToolCallReq) :
    ∀ (st st2 : AgentState), execToolCalls env q fm tcs st = .ok st2 →
    dictKeys st.all_sources = ALL_SOURCE_KEYS →
    dictKeys st2.all_sources = ALL_SOURCE_KEYS := by
  induction tcs with
  | nil =>
    intro st st2 he h
    rw [← Except.ok.inj he]
    exact h
  | cons tc rest ih =>
    intro st st2 he h
    rw [execToolCalls] at he
    cases hx : execToolCall env q fm st tc with
    | ok stm =>
      rw [hx] at he
      exact ih stm st2 he (keys_execToolCall env q fm st tc stm hx h)
    | error e =>
      rw [hx] at he
      cases he

theorem fallbackTasks_names (env : Env) (q : String) :
    ∀ t ∈ fallbackTasks env q, t.1 ∈ ALL_SOURCE_KEYS := by
  intro t ht
  unfold fallbackTasks at ht
  rcases List.mem_append.mp ht with h1 | h2
  · rcases List.mem_append.mp h1 with h3 | h4
    · simp only [List.mem_cons, List.not_mem_nil, or_false] at h3
      rcases h3 with rfl | rfl | rfl | rfl | rfl | rfl | rfl <;>
        simp [ALL_SOURCE_KEYS, TOOL_TO_SOURCE_KEY]
    · by_cases hc : env.tavily_api_key = ""
      · simp [hc] at h4
      · simp only [hc, if_false, List.mem_singleton] at h4
        rw [h4]
        simp [ALL_SOURCE_KEYS, TOOL_TO_SOURCE_KEY]
  · by_cases hc : env.youtube_api_key = ""
    · simp [hc] at h2
    · simp only [hc, if_false, List.mem_singleton] at h2
      rw [h2]
      simp [ALL_SOURCE_KEYS, TOOL_TO_SOURCE_KEY]

theorem keys_fold_dictSet (l : List (String × ToolResult)) :
    ∀ (d : SourcesDict), dictKeys d = ALL_SOURCE_KEYS →
    (∀ p ∈ l, p.1 ∈ ALL_SOURCE_KEYS) →
    dictKeys (l.foldl (fun acc p => dictSet acc p.1 (.res p.2)) d) =
      ALL_SOURCE_KEYS := by
  induction l with
  | nil => intro d hd _; exact hd
  | cons p t ih =>
    intro d hd hl
    rw [List.foldl_cons]
    apply ih
    · rw [dictKeys_dictSet_of_mem]
      · exact hd
      · rw [show d.map Prod.fst = dictKeys d from rfl, hd]
        exact hl p (List.mem_cons_self _ _)
    · intro x hx
      exact hl x (List.mem_cons_of_mem _ hx)

theorem keys_empty_sources : dictKeys empty_sources = ALL_SOURCE_KEYS := by decide

theorem keys_fallbackSearch (env : Env) (q : String) (st0 : AgentState) :
    dictKeys (fallbackSearch env q st0).1.sources = ALL_SOURCE_KEYS := by
  unfold fallbackSearch
  apply keys_fold_dictSet
  · exact keys_empty_sources
  · intro p hp
    obtain ⟨t, htmem, hteq⟩ := List.mem_map.mp hp
    rw [← hteq]
    exact fallbackTasks_names env q t htmem

theorem keys_finalSynthesis (env : Env) (q : String) (st : AgentState)
    (h : dictKeys st.all_sources = ALL_SOURCE_KEYS) :
    dictKeys (finalSynthesis env q st).1.sources = ALL_SOURCE_KEYS := by
  unfold finalSynthesis
  dsimp only
  split <;> exact h

theorem keys_searchLoop (env : Env) (q : String) (fm : List (String × String)) :
    ∀ (fuel : Nat) (st : AgentState) (out : Outcome) (st2 : AgentState),
    dictKeys st.all_sources = ALL_SOURCE_KEYS →
    searchLoop env q fm fuel st = .ok (out, st2) →
    dictKeys out.sources = ALL_SOURCE_KEYS := by
  intro fuel
  induction fuel with
  | zero =>
    intro st out st2 h he
    rw [searchLoop] at he
    have h2 := Except.ok.inj he
    rw [show out = (finalSynthesis env q st).1 from by rw [h2]]
    exact keys_finalSynthesis env q st h
  | succ fuel ih =>
    intro st out st2 h he
    rw [searchLoop] at he
    dsimp only at he
    split at he
    · have h2 := Except.ok.inj he
      rw [show out = (fallbackSearch env q _).1 from by rw [h2]]
      exact keys_fallbackSearch env q _
    · split at he
      · have h2 := Except.ok.inj he
        have h3 : out.sources = st.all_sources := by
          rw [show out = (Prod.mk ⟨q, _, _, _⟩ _).1 from by rw [h2]]
        rw [h3]
        exact h
      · split at he
        · rename_i st3 hexec
          exact ih st3 out st2
            (keys_execToolCalls env q fm _ _ st3 hexec h) he
        · cases he

/-- C1: on every path on which `search` returns an outcome, the sources
mapping of that outcome has exactly the nine fixed response keys, in the
fixed order; merging tool results never adds or removes a key. -/
theorem C1_sources_keys_invariant (env : Env) (q : String) (out : Outcome)
    (st : AgentState) (h : search env q = .ok (out, st)) :
    dictKeys out.sources = ALL_SOURCE_KEYS := by
  unfold search at h
  dsimp only at h
  split at h
  · have h2 := Except.ok.inj h
    rw [show out = (fallbackSearch env q blankState).1 from by rw [h2]]
    exact keys_fallbackSearch env q blankState
  · split at h
    · have h2 := Except.ok.inj h
      rw [show out = (fallbackSearch env q blankState).1 from by rw [h2]]
      exact keys_fallbackSearch env q blankState
    · exact keys_searchLoop env q _ MAX_ITERATIONS (initialState q) out st
        keys_empty_sources h

/-- C1 witness: a concrete run (fallback path of the stub environment)
returns a sources dict whose key list is exactly the nine keys. -/
theorem C1_witness :
    dictKeys (match search stubEnv "q" with
      | .ok (out, _) => out.sources
      | .error _ => []) = ALL_SOURCE_KEYS := by
  have h : search stubEnv "q" =
      .ok ((fallbackSearch stubEnv "q" blankState).1,
           (fallbackSearch stubEnv "q" blankState).2) := rfl
  have := C1_sources_keys_invariant stubEnv "q"
    (fallbackSearch stubEnv "q" blankState).1
    (fallbackSearch stubEnv "q" blankState).2 h
  simpa [h] using this

/- C4: an LLM first response without tool calls terminates the loop. -/

theorem searchLoop_succ_no_tools (env : Env) (q : String)
    (fm : List (String × String)) (fuel : Nat) (st : AgentState)
    (msg : ChatMessage) (h0 : env.llm st.llmLog.length = .success msg)
    (hnt : msg.tool_calls = []) :
    searchLoop env q fm (fuel + 1) st =
      .ok ({ query := q
             response := some msg.content
             sources := st.all_sources
             success := true },
           { st with llmLog := st.llmLog ++ [true] }) := by
  rw [searchLoop]
  dsimp only
  rw [h0]
  dsimp only
  rw [hnt]
  rfl

/-- C4 (amended): if the LLM first response carries no tool-call requests,
`search` returns after exactly one LLM call, with that response text as the
synthesized response, success true, and the sources dict still in its
initial empty state — which maps eight response keys to an empty sequence
and the tavily key to None (not an empty sequence). -/
theorem C4_no_tool_calls_single_call (env : Env) (q : String)
    (msg : ChatMessage) (hk : env.groq_api_key ≠ "")
    (ht : (getAvailableTools env).1 ≠ [])
    (h0 : env.llm 0 = .success msg) (hnt : msg.tool_calls = []) :
    search env q =
      .ok ({ query := q
             response := some msg.content
             sources := empty_sources
             success := true },
           { initialState q with llmLog := [true] }) ∧
    dictGet empty_sources "tavily" = some SourceVal.pyNone ∧
    (∀ k ∈ ALL_SOURCE_KEYS, k ≠ "tavily" →
      dictGet empty_sources k = some (SourceVal.res (.list []))) := by
  refine ⟨?_, by decide, by decide⟩
  unfold search
  rw [if_neg hk]
  dsimp only
  rw [if_neg (by simp [List.isEmpty_iff, ht])]
  rw [show MAX_ITERATIONS = 4 + 1 from rfl]
  rw [searchLoop_succ_no_tools env q _ 4 (initialState q) msg h0 hnt]
  rfl

/-- C4 counterexample: on the concrete no-tool-call run the returned
sources dict maps the tavily key to None, not to an empty sequence. -/
theorem C4_counterexample :
    (match search envNoToolCalls "q" with
     | .ok (out, _) => dictGet out.sources "tavily"
     | .error _ => none) = some SourceVal.pyNone ∧
    some SourceVal.pyNone ≠ some (SourceVal.res (.list [])) := by decide

/-- C4 witness: the amended claim evaluated on the concrete environment. -/
theorem C4_witness :
    search envNoToolCalls "q" =
      .ok ({ query := "q"
             response := some (some "answer")
             sources := empty_sources
             success := true },
           { initialState "q" with llmLog := [true] }) := by
  exact (C4_no_tool_calls_single_call envNoToolCalls "q" ⟨some "answer", []⟩
    (by decide) (by decide) rfl rfl).1

/- C5: recovery from malformed arguments, and which faults can escape. -/

theorem bindKwargs_default (q : String) :
    bindKwargs [("query", PyVal.str q)] = some (.str q, none) := rfl

theorem execToolCall_ok (env : Env) (q : String) (fm : List (String × String))
    (st : AgentState) (tc : ToolCallReq)
    (hok : toolCallExecOK fm tc = true) :
    ∃ st2, execToolCall env q fm st tc = .ok st2 ∧ st2.llmLog = st.llmLog ∧
      st2.fellBack = st.fellBack ∧ st2.messages ≠ [] := by
  unfold execToolCall
  unfold toolCallExecOK at hok
  cases hl : fm.lookup tc.fname with
  | none =>
    rw [hl] at hok
    exact ⟨_, rfl, rfl, rfl, by simp⟩
  | some fnId =>
    rw [hl] at hok
    cases ha : tc.arguments with
    | malformed raw =>
      exact ⟨_, rfl, rfl, rfl, by simp⟩
    | decoded v =>
      rw [ha] at hok
      cases v with
      | obj kv =>
        dsimp only [decodeArgs]
        cases hb : bindKwargs kv with
        | some pr =>
          exact ⟨_, rfl, rfl, rfl, by simp⟩
        | none =>
          dsimp only at hok
          rw [hb] at hok
          simp at hok
      | nonObj raw =>
        simp at hok

theorem execToolCalls_ok (env : Env) (q : String) (fm : List (String × String)) :
    ∀ (tcs : List ToolCallReq) (st : AgentState),
    (∀ tc ∈ tcs, toolCallExecOK fm tc = true) →
    ∃ st2, execToolCalls env q fm tcs st = .ok st2 ∧ st2.llmLog = st.llmLog ∧
      st2.fellBack = st.fellBack := by
  intro tcs
  induction tcs with
  | nil =>
    intro st _
    exact ⟨st, rfl, rfl, rfl⟩
  | cons tc rest ih =>
    intro st hall
    obtain ⟨stm, he1, hl1, hf1, _⟩ :=
      execToolCall_ok env q fm st tc (hall tc (List.mem_cons_self _ _))
    obtain ⟨st2, he2, hl2, hf2⟩ := ih stm (fun x hx => hall x (List.mem_cons_of_mem _ hx))
    refine ⟨st2, ?_, by rw [hl2, hl1], by rw [hf2, hf1]⟩
    rw [execToolCalls, he1]
    exact he2

theorem searchLoop_no_fault (env : Env) (q : String) (fm : List (String × String))
    (hall : ∀ (k : Nat) (msg : ChatMessage), env.llm k = .success msg →
      msg.tool_calls.all (toolCallExecOK fm) = true) :
    ∀ (fuel : Nat) (st : AgentState), isOkB (searchLoop env q fm fuel st) = true := by
  intro fuel
  induction fuel with
  | zero => intro st; rfl
  | succ fuel ih =>
    intro st
    rw [searchLoop]
    dsimp only
    cases hr : env.llm st.llmLog.length with
    | exn e => rfl
    | success msg =>
      dsimp only
      by_cases hmt : msg.tool_calls.isEmpty
      · rw [if_pos hmt]
        rfl
      · rw [if_neg hmt]
        obtain ⟨st2, he, _, _⟩ := execToolCalls_ok env q fm msg.tool_calls _
          (fun tc htc => by
            have := hall _ msg hr
            exact List.all_eq_true.mp this tc htc)
        rw [he]
        exact ih st2

/-- C5 (amended): a tool-call request whose serialized arguments fail to
decode as JSON is executed with the default argument dict built from the
original query, the batch is not aborted, and runs in which every decoded
argument object binds against the provider signature return without fault;
however (see the counterexample) arguments that decode to valid JSON that
does not bind the signature raise an unhandled fault out of `search`. -/
theorem C5_malformed_args_recovered :
    (∀ (env : Env) (q : String) (fm : List (String × String)) (st : AgentState)
       (id fname fnId raw : String), fm.lookup fname = some fnId →
       execToolCall env q fm st ⟨id, fname, .malformed raw⟩ =
         .ok { st with
               all_sources := collectSource st.all_sources fname
                 (env.toolRun fnId (.str q) none)
               invocations := st.invocations ++ [⟨fnId, .str q, none⟩]
               messages := st.messages ++
                 [.toolTurn id (dumpToolResult (env.toolRun fnId (.str q) none))] }) ∧
    (∀ (env : Env) (q : String),
       (∀ (k : Nat) (msg : ChatMessage), env.llm k = .success msg →
         msg.tool_calls.all (toolCallExecOK (getAvailableTools env).2) = true) →
       isOkB (search env q) = true) := by
  constructor
  · intro env q fm st id fname fnId raw hl
    unfold execToolCall
    rw [hl]
    rfl
  · intro env q hall
    unfold search
    split
    · rfl
    · dsimp only
      split
      · rfl
      · exact searchLoop_no_fault env q _ hall MAX_ITERATIONS (initialState q)

/-- C5 counterexample: one tool call whose arguments are the valid JSON
object with no fields (so json.loads succeeds but binding against the
provider signature fails) makes `search` raise a TypeError to its caller. -/
theorem C5_counterexample :
    search envEmptyObjArgs "q" = .error (.typeError "search_arxiv") := rfl

/-- C5 witness: the malformed-argument recovery evaluated concretely, plus
a fault-free full run whose every scripted call has undecodable arguments. -/
theorem C5_witness :
    execToolCall stubEnv "q" [("search_arxiv", "search_arxiv")] blankState
      ⟨"id1", "search_arxiv", .malformed "oops"⟩ =
      .ok { blankState with
            all_sources := collectSource blankState.all_sources "search_arxiv"
              (.list [])
            invocations := [⟨"search_arxiv", .str "q", none⟩]
            messages := [.toolTurn "id1" (dumpToolResult (.list []))] } ∧
    isOkB (search envMalformedArgs "q") = true := by
  constructor
  · exact C5_malformed_args_recovered.1 stubEnv "q" _ blankState
      "id1" "search_arxiv" "search_arxiv" "oops" rfl
  · exact C5_malformed_args_recovered.2 envMalformedArgs "q"
      (fun k msg h => by cases h; decide)

/- C2: exactly MAX_ITERATIONS tool-exec iterations under an always-tools
script, then one forced synthesis call without tool schemas. -/

theorem searchLoop_always_tools (env : Env) (q : String)
    (fm : List (String × String)) :
    ∀ (fuel : Nat) (st : AgentState),
    st.fellBack = false →
    (∀ k, st.llmLog.length ≤ k → k < st.llmLog.length + fuel →
      requestsExecutableTools fm (env.llm k) = true) →
    isExnB (env.llm (st.llmLog.length + fuel)) = true →
    ∃ out st2, searchLoop env q fm fuel st = .ok (out, st2) ∧
      st2.llmLog = st.llmLog ++ List.replicate fuel true ++ [false] ∧
      st2.fellBack = false ∧
      out.response = none ∧ out.success = true ∧
      out.sources = st2.all_sources ∧
      st2.messages.getLast? = some (.user FINAL_SYNTHESIS_PROMPT) := by
  intro fuel
  induction fuel with
  | zero =>
    intro st hfb _ hexn
    rw [searchLoop]
    unfold finalSynthesis
    dsimp only
    cases hr : env.llm st.llmLog.length with
    | success msg =>
      rw [Nat.add_zero, hr] at hexn
      simp [isExnB] at hexn
    | exn e =>
      refine ⟨_, _, rfl, by simp, hfb, rfl, rfl, rfl, ?_⟩
      exact List.getLast?_concat _
  | succ fuel ih =>
    intro st hfb hscript hexn
    have hreq := hscript st.llmLog.length (Nat.le_refl _) (by omega)
    rw [searchLoop]
    dsimp only
    cases hr : env.llm st.llmLog.length with
    | exn e =>
      rw [hr] at hreq
      simp [requestsExecutableTools] at hreq
    | success msg =>
      rw [hr] at hreq
      unfold requestsExecutableTools at hreq
      rw [Bool.and_eq_true] at hreq
      obtain ⟨h1, h2⟩ := hreq
      have hne : ¬ (msg.tool_calls.isEmpty = true) := by
        simp only [Bool.not_eq_true'] at h1
        simp [h1]
      dsimp only
      rw [if_neg hne]
      obtain ⟨stm, he, hlm, hfm⟩ :=
        execToolCalls_ok env q fm msg.tool_calls _ (List.all_eq_true.mp h2)
      rw [he]
      have hlm2 : stm.llmLog = st.llmLog ++ [true] := hlm
      have hfb2 : stm.fellBack = false := by
        rw [show stm.fellBack = st.fellBack from hfm]
        exact hfb
      have hlenlen : stm.llmLog.length = st.llmLog.length + 1 := by
        rw [hlm2]
        simp
      obtain ⟨out, st2, he2, hlog2, hfb3, hresp, hsucc, hsrc, hlast⟩ :=
        ih stm hfb2
          (fun k hk1 hk2 => hscript k (by omega) (by rw [hlenlen] at hk2; omega))
          (by rw [hlenlen, show st.llmLog.length + 1 + fuel = st.llmLog.length + (fuel + 1) from by omega]
              exact hexn)
      refine ⟨out, st2, he2, ?_, hfb3, hresp, hsucc, hsrc, hlast⟩
      rw [hlog2, hlm2]
      simp [List.replicate_succ]

/-- C2 (amended): with an LLM credential, at least one available tool, an
LLM that requests at least one tool call on each of the five in-loop calls
— each call with arguments that either fail to decode as JSON or decode to
an object binding the provider signature — and a sixth call that raises:
`search` performs exactly MAX_ITERATIONS = 5 tool-exec iterations (five
LLM calls with tool schemas), appends one more user turn, makes exactly
one additional LLM call without tool schemas, and on its failure returns
an outcome with no synthesized text, success true, and the accumulated
sources of the final loop state. -/
theorem C2_iteration_cap_and_failed_synthesis (env : Env) (q : String)
    (hk : env.groq_api_key ≠ "")
    (ht : (getAvailableTools env).1 ≠ [])
    (hscript : ∀ k, k < MAX_ITERATIONS →
      requestsExecutableTools (getAvailableTools env).2 (env.llm k) = true)
    (hfail : isExnB (env.llm MAX_ITERATIONS) = true) :
    (resState (search env q)).map AgentState.llmLog =
      some (List.replicate MAX_ITERATIONS true ++ [false]) ∧
    (resState (search env q)).map AgentState.fellBack = some false ∧
    (resOutcome (search env q)).map Outcome.response = some none ∧
    (resOutcome (search env q)).map Outcome.success = some true ∧
    (resOutcome (search env q)).map Outcome.sources =
      (resState (search env q)).map AgentState.all_sources ∧
    (resState (search env q)).map (fun s => s.messages.getLast?) =
      some (some (.user FINAL_SYNTHESIS_PROMPT)) := by
  have hsearch : search env q =
      searchLoop env q (getAvailableTools env).2 MAX_ITERATIONS (initialState q) := by
    unfold search
    rw [if_neg hk]
    dsimp only
    rw [if_neg (by simp [List.isEmpty_iff, ht])]
  obtain ⟨out, st2, he, hlog, hfb, hresp, hsucc, hsrc, hlast⟩ :=
    searchLoop_always_tools env q (getAvailableTools env).2 MAX_ITERATIONS
      (initialState q) rfl (fun k _ hk2 => hscript k hk2) hfail
  rw [hsearch, he]
  refine ⟨?_, ?_, ?_, ?_, ?_, ?_⟩ <;>
    simp [resState, resOutcome, hlog, hfb, hresp, hsucc, hsrc, hlast, initialState]

/-- C2 witness: the concrete always-tools environment runs five tool-exec
iterations, one final synthesis call without schemas, and returns with no
response text. -/
theorem C2_witness :
    (resState (search envAlwaysTools "q")).map AgentState.llmLog =
      some (List.replicate MAX_ITERATIONS true ++ [false]) ∧
    (resOutcome (search envAlwaysTools "q")).map Outcome.response = some none := by
  have h := C2_iteration_cap_and_failed_synthesis envAlwaysTools "q"
    (by decide) (by decide) (by decide) (by decide)
  exact ⟨h.1, h.2.2.1⟩

/-- C2 counterexample: an environment satisfying the original claim's
hypotheses — credential configured, tools available, and an LLM that
requests one tool call on every call — on which `search` raises a
TypeError instead of performing five tool-exec iterations and a final
synthesis call, because the requested arguments decode to an empty JSON
object that does not bind the provider signature. -/
theorem C2_counterexample :
    envEmptyObjArgs.groq_api_key = "k" ∧
    (getAvailableTools envEmptyObjArgs).1 ≠ [] ∧
    envEmptyObjArgs.llm =
      (fun _ => .success ⟨none, [⟨"c1", "search_arxiv", .decoded (.obj [])⟩]⟩) ∧
    search envEmptyObjArgs "q" = .error (.typeError "search_arxiv") ∧
    resOutcome (search envEmptyObjArgs "q") = none := by
  exact ⟨rfl, by decide, rfl, rfl, rfl⟩

/- C3: the fallback path is taken in exactly three situations. -/

theorem state_execToolCall (env : Env) (q : String)
    (fm : List (String × String)) (st : AgentState) (tc : ToolCallReq)
    (st2 : AgentState) (he : execToolCall env q fm st tc = .ok st2) :
    st2.fellBack = st.fellBack ∧ st2.llmLog = st.llmLog := by
  unfold execToolCall at he
  split at he
  · split at he
    · split at he
      · have h2 := Except.ok.inj he
        rw [← h2]
        exact ⟨rfl, rfl⟩
      · cases he
    · cases he
  · have h2 := Except.ok.inj he
    rw [← h2]
    exact ⟨rfl, rfl⟩

theorem state_execToolCalls (env : Env) (q : String)
    (fm : List (String × String)) :
    ∀ (tcs : List ToolCallReq) (st st2 : AgentState),
    execToolCalls env q fm tcs st = .ok st2 →
    st2.fellBack = st.fellBack ∧ st2.llmLog = st.llmLog := by
  intro tcs
  induction tcs with
  | nil =>
    intro st st2 he
    rw [← Except.ok.inj he]
    exact ⟨rfl, rfl⟩
  | cons tc rest ih =>
    intro st st2 he
    rw [execToolCalls] at he
    cases hx : execToolCall env q fm st tc with
    | ok stm =>
      rw [hx] at he
      obtain ⟨hf1, hl1⟩ := state_execToolCall env q fm st tc stm hx
      obtain ⟨hf2, hl2⟩ := ih stm st2 he
      exact ⟨hf2.trans hf1, hl2.trans hl1⟩
    | error e =>
      rw [hx] at he
      cases he

theorem searchLoop_fellBack_iff (env : Env) (q : String)
    (fm : List (String × String)) :
    ∀ (fuel : Nat) (st : AgentState) (out : Outcome) (st2 : AgentState),
    st.fellBack = false →
    searchLoop env q fm fuel st = .ok (out, st2) →
    (st2.fellBack = true ↔
      (st2.llmLog.getLast? = some true ∧
       isExnB (env.llm (st2.llmLog.length - 1)) = true)) := by
  intro fuel
  induction fuel with
  | zero =>
    intro st out st2 hfb he
    rw [searchLoop] at he
    have hsnd : (finalSynthesis env q st).2 =
        { st with messages := st.messages ++ [Message.user FINAL_SYNTHESIS_PROMPT]
                  llmLog := st.llmLog ++ [false] } := by
      unfold finalSynthesis
      dsimp only
      split <;> rfl
    have hst2 : st2 =
        { st with messages := st.messages ++ [Message.user FINAL_SYNTHESIS_PROMPT]
                  llmLog := st.llmLog ++ [false] } := by
      rw [← hsnd]
      exact (congrArg Prod.snd (Except.ok.inj he)).symm
    constructor
    · intro hcon
      rw [hst2] at hcon
      exact absurd (show st.fellBack = true from hcon) (by simp [hfb])
    · rintro ⟨ha, _⟩
      rw [hst2] at ha
      simp only [show ({ st with
          messages := st.messages ++ [Message.user FINAL_SYNTHESIS_PROMPT]
          llmLog := st.llmLog ++ [false] } : AgentState).llmLog =
        st.llmLog ++ [false] from rfl, List.getLast?_concat] at ha
      cases ha
  | succ fuel ih =>
    intro st out st2 hfb he
    rw [searchLoop] at he
    dsimp only at he
    split at he
    · rename_i e heq
      have hst2 : st2 =
          (fallbackSearch env q { st with llmLog := st.llmLog ++ [true] }).2 :=
        (congrArg Prod.snd (Except.ok.inj he)).symm
      have hfbt : st2.fellBack = true := by rw [hst2]; rfl
      have hlog : st2.llmLog = st.llmLog ++ [true] := by rw [hst2]; rfl
      constructor
      · intro _
        constructor
        · rw [hlog]
          exact List.getLast?_concat _
        · rw [hlog]
          simp only [List.length_append, List.length_singleton,
            Nat.add_sub_cancel]
          rw [heq]
          rfl
      · intro _
        exact hfbt
    · rename_i msg heq
      split at he
      · rename_i hempty
        have hst2 : st2 = { st with llmLog := st.llmLog ++ [true] } :=
          (congrArg Prod.snd (Except.ok.inj he)).symm
        have hfb2 : st2.fellBack = false := by
          rw [hst2]
          exact hfb
        have hlog : st2.llmLog = st.llmLog ++ [true] := by rw [hst2]
        constructor
        · intro hcon
          rw [hfb2] at hcon
          cases hcon
        · rintro ⟨_, hb⟩
          rw [hlog] at hb
          simp only [List.length_append, List.length_singleton,
            Nat.add_sub_cancel] at hb
          rw [heq] at hb
          cases hb
      · split at he
        · rename_i st3 hexec
          have hfb3 : st3.fellBack = false := by
            obtain ⟨hf, _⟩ := state_execToolCalls env q fm _ _ st3 hexec
            rw [hf]
            exact hfb
          exact ih st3 out st2 hfb3 he
        · cases he

/-- C3: search falls back exactly when the LLM credential is unset (zero
LLM calls ever issued), when zero tools are available (also zero LLM
calls), or when an in-loop LLM call raises, in which case the failing call
is the last LLM call made (no retry) and carried tool schemas; the forced
final-synthesis call failing does NOT produce a fallback. -/
theorem C3_fallback_exactly_when (env : Env) (q : String) (out : Outcome)
    (st : AgentState) (h : search env q = .ok (out, st)) :
    (env.groq_api_key = "" → st.fellBack = true ∧ st.llmLog = []) ∧
    (env.groq_api_key ≠ "" → (getAvailableTools env).1 = [] →
      st.fellBack = true ∧ st.llmLog = []) ∧
    (st.fellBack = true ↔
      (env.groq_api_key = "" ∨ (getAvailableTools env).1 = [] ∨
       (st.llmLog.getLast? = some true ∧
        isExnB (env.llm (st.llmLog.length - 1)) = true))) := by
  unfold search at h
  dsimp only at h
  split at h
  · rename_i hkey
    have hst : st = (fallbackSearch env q blankState).2 :=
      (congrArg Prod.snd (Except.ok.inj h)).symm
    have hfb : st.fellBack = true := by rw [hst]; rfl
    have hlog : st.llmLog = [] := by rw [hst]; rfl
    refine ⟨fun _ => ⟨hfb, hlog⟩, fun hk _ => absurd hkey hk, ?_⟩
    constructor
    · intro _
      exact Or.inl hkey
    · intro _
      exact hfb
  · rename_i hkey
    split at h
    · rename_i hempty
      have hav : (getAvailableTools env).1 = [] := by
        simpa [List.isEmpty_iff] using hempty
      have hst : st = (fallbackSearch env q blankState).2 :=
        (congrArg Prod.snd (Except.ok.inj h)).symm
      have hfb : st.fellBack = true := by rw [hst]; rfl
      have hlog : st.llmLog = [] := by rw [hst]; rfl
      refine ⟨fun hk => absurd hk hkey, fun _ _ => ⟨hfb, hlog⟩, ?_⟩
      constructor
      · intro _
        exact Or.inr (Or.inl hav)
      · intro _
        exact hfb
    · rename_i hempty
      have hav : (getAvailableTools env).1 ≠ [] := by
        simpa [List.isEmpty_iff] using hempty
      have hiff := searchLoop_fellBack_iff env q _ MAX_ITERATIONS
        (initialState q) out st rfl h
      refine ⟨fun hk => absurd hk hkey, fun _ hcontra => absurd hcontra hav, ?_⟩
      rw [hiff]
      constructor
      · intro hrhs
        exact Or.inr (Or.inr hrhs)
      · rintro (h1 | h2 | h3)
        · exact absurd h1 hkey
        · exact absurd h2 hav
        · exact h3

/-- C3 witness: with no LLM credential configured the concrete run falls
back and issues zero LLM calls. -/
theorem C3_witness :
    (resState (search stubEnv "q")).map AgentState.fellBack = some true ∧
    (resState (search stubEnv "q")).map AgentState.llmLog = some [] := by
  have h := C3_fallback_exactly_when stubEnv "q"
    (fallbackSearch stubEnv "q" blankState).1
    (fallbackSearch stubEnv "q" blankState).2 rfl
  have h2 := h.1 rfl
  rw [show search stubEnv "q" =
    .ok ((fallbackSearch stubEnv "q" blankState).1,
         (fallbackSearch stubEnv "q" blankState).2) from rfl]
  simp [resState, h2.1, h2.2]

/-- C7 witness: the filter-dedup-truncate law evaluated on a concrete
fetched page. -/
theorem C7_witness :
    ([({ title := "alphabet paper ok", description := "",
         url := "https://www.anthropic.com/research/x" } : AnthRec)].map
      AnthRec.url).Nodup ∧
    [({ title := "alphabet paper ok", description := "",
        url := "https://www.anthropic.com/research/x" } : AnthRec)].length =
      min 5 (dedupByUrl ([cxLink].filterMap
        (anthKeep (pySplit (pyLower "alpha zzz")))) []).length := by
  have h := C7_anthropic_filter_dedup_truncate [cxLink] "alpha zzz" 5
    [{ title := "alphabet paper ok", description := "",
       url := "https://www.anthropic.com/research/x" }] (by decide)
  exact ⟨h.2.1, h.2.2⟩
